import Mathlib

/-!
Shallow embedding of the funds-transfer and exchange-rate-resolution core of
the Yala banking service (`services/transaction_service.py`,
`services/exchange_service.py`, `services/account_service.py`).

Python floats are modeled as exact rationals (`ℚ`); decimal literals from the
source are written as the equal fractions (0.27 = 27/100, and so on).
SQLAlchemy rows are modeled as records in explicit lists; the session's
identity map (two queries for the same row return the same mutable object) is
modeled by applying each in-place mutation to every list entry carrying the
mutated row's id, in program order.  Raised `ValueError`s become `Except`
errors carrying a constructor per distinct error message.
-/

/-- Modelled from the spec (§3, `database/models.py` is not part of the given
sources): a currency row. -/
structure Currency where
  id : Nat
  code : String
  name : String
deriving Repr, DecidableEq

/-- Modelled from the spec (§3): an account row. -/
structure Account where
  id : Nat
  user_id : Nat
  currency_id : Nat
  balance : ℚ
deriving Repr, DecidableEq

/-- Modelled from the spec (§3): a ledger row, as built by
`TransactionService.create_new_transaction` (the generated primary key and the
timestamp, which is wall-clock time, are outside the embedding). -/
structure Transaction where
  sender_id : Nat
  receiver_id : Nat
  source_account_id : Nat
  destination_account_id : Nat
  source_amount : ℚ
  source_currency_id : Nat
  destination_amount : ℚ
  destination_currency_id : Nat
  exchange_rate : ℚ
  description : Option String
deriving Repr, DecidableEq

/-- The database state visible to the services: account rows, currency rows
and the append-only transaction ledger. -/
structure DB where
  accounts : List Account
  currencies : List Currency
  transactions : List Transaction
deriving Repr, DecidableEq

/-- The error raised by both exchange services when no rate can be produced
for a currency pair; it names both currency codes, mirroring the interpolated
`ValueError` messages in the source. -/
inductive RateError where
  | rateUnavailable (from_code to_code : String)
deriving Repr, DecidableEq

/-- The errors `TransactionService.create_new_transaction` can raise, one
constructor per distinct `ValueError` in the source; `currencyLookupFailed`
stands for the `AttributeError` the source would hit when a currency row is
missing (`source_currency.code` on `None`). -/
inductive TxError where
  | sourceAccountNotFound
  | destinationAccountNotFound
  | insufficientBalance
  | currencyLookupFailed
  | rateUnavailable (from_code to_code : String)
deriving Repr, DecidableEq

/-- The errors `AccountService.deposit_to_account` can raise. -/
inductive DepositError where
  | invalidAmount
  | accountNotFound
deriving Repr, DecidableEq

/-- `dict.get` on a rate table keyed by directed currency-code pairs. -/
def ratesGet (table : List ((String × String) × ℚ)) (p : String × String) : Option ℚ :=
  (table.find? (fun e => decide (e.1 = p))).map (fun e => e.2)

/-- `MockExchangeService.MOCKED_RATES` (transaction_service.py lines 15-26),
decimals written as the equal fractions. -/
def MOCKED_RATES : List ((String × String) × ℚ) :=
  [(("PEN", "USD"), 27/100),   -- 0.27
   (("USD", "PEN"), 37/10),    -- 3.70
   (("EUR", "USD"), 27/25),    -- 1.08
   (("USD", "EUR"), 23/25),    -- 0.92
   (("PEN", "EUR"), 1/4),      -- 0.25
   (("EUR", "PEN"), 4),        -- 4.00
   (("GBP", "USD"), 5/4),      -- 1.25
   (("JPY", "USD"), 17/2500),  -- 0.0068
   (("CAD", "USD"), 73/100),   -- 0.73
   (("AUD", "USD"), 33/50)]    -- 0.66

/-- `MockExchangeService.get_exchange_rate` (transaction_service.py lines
28-36).  The `time.sleep` is functionally inert and omitted.  Python's
`if inverse_rate:` is a truthiness test, so a zero inverse rate falls through
to the `raise`. -/
def MockExchangeService.get_exchange_rate
    (from_currency_code to_currency_code : String) : Except RateError ℚ :=
  match ratesGet MOCKED_RATES (from_currency_code, to_currency_code) with
  | some rate => Except.ok rate
  | none =>
    match ratesGet MOCKED_RATES (to_currency_code, from_currency_code) with
    | some inverse_rate =>
      if inverse_rate ≠ 0 then Except.ok (1 / inverse_rate)
      else Except.error (RateError.rateUnavailable from_currency_code to_currency_code)
    | none => Except.error (RateError.rateUnavailable from_currency_code to_currency_code)

/-- Which of the two live provider adapters the singleton's `_current_api`
points at (`_primary_api = ExchangeRateAPI`, `_fallback_api =
CurrencyConverterAPI`). -/
inductive ApiChoice where
  | primary
  | fallback
deriving Repr, DecidableEq

/-- The swap `self._current_api = self._fallback_api if self._current_api ==
self._primary_api else self._primary_api` (exchange_service.py lines 33, 42). -/
def otherApi : ApiChoice → ApiChoice
  | ApiChoice.primary => ApiChoice.fallback
  | ApiChoice.fallback => ApiChoice.primary

/-- The two live provider adapters (`core/exchange/api1_adapter.py` and
`api2_adapter.py` are outbound HTTP clients, not part of the given sources):
each is an arbitrary partial rate function, `none` standing for a raised
exception. -/
structure ExchangeProviders where
  primary_api : String → String → Option ℚ
  fallback_api : String → String → Option ℚ

/-- Dereference the `_current_api` pointer. -/
def apiOf (providers : ExchangeProviders) : ApiChoice → String → String → Option ℚ
  | ApiChoice.primary => providers.primary_api
  | ApiChoice.fallback => providers.fallback_api

/-- `ExchangeService.get_exchange_rate` (exchange_service.py lines 27-38),
with the singleton's mutable `_current_api` threaded explicitly: try the
current provider; on failure swap to the other and retry; on a second failure
restore `_current_api` to `old_api` and raise naming both codes. -/
def ExchangeService.get_exchange_rate (providers : ExchangeProviders)
    (current_api : ApiChoice) (from_currency to_currency : String) :
    Except RateError ℚ × ApiChoice :=
  match apiOf providers current_api from_currency to_currency with
  | some rate => (Except.ok rate, current_api)
  | none =>
    match apiOf providers (otherApi current_api) from_currency to_currency with
    | some rate => (Except.ok rate, otherApi current_api)
    | none =>
      (Except.error (RateError.rateUnavailable from_currency to_currency), current_api)

/-- `ExchangeService.__new__` (exchange_service.py lines 19-25): the class
attribute `_instance` is the explicit process state (`none` before the first
construction); a construction either initializes `_current_api` to the primary
adapter or returns the existing instance untouched.  Returning the same object
is rendered as returning the stored pointer state. -/
def ExchangeService.new : Option ApiChoice → Option ApiChoice × ApiChoice
  | none => (some ApiChoice.primary, ApiChoice.primary)
  | some current_api => (some current_api, current_api)

/-- The source-account query (transaction_service.py lines 56-59): first row
with the given id that belongs to the given user. -/
def findAccountByIdAndUser (accounts : List Account) (idv user_idv : Nat) : Option Account :=
  accounts.find? (fun a => decide (a.id = idv ∧ a.user_id = user_idv))

/-- A `filter(Account.id == ...).first()` query. -/
def findAccountById (accounts : List Account) (idv : Nat) : Option Account :=
  accounts.find? (fun a => decide (a.id = idv))

/-- A `filter(Currency.id == ...).first()` query. -/
def findCurrencyById (currencies : List Currency) (idv : Nat) : Option Currency :=
  currencies.find? (fun c => decide (c.id = idv))

/-- An in-place mutation of one account row's balance (`account.balance -=
...` or `+= ...` on the ORM object), applied to every stored row carrying that
id. -/
def setBalances (accounts : List Account) (idv : Nat) (f : ℚ → ℚ) : List Account :=
  accounts.map (fun a => if a.id = idv then { a with balance := f a.balance } else a)

/-- The `TransactionCreate` pydantic input model (transaction_service.py lines
39-43).  Its `amount` field carries no positivity constraint. -/
structure TransactionCreate where
  source_account_id : Nat
  destination_account_id : Nat
  amount : ℚ
  description : Option String
deriving Repr, DecidableEq

/-- The `Transaction(...)` record built at transaction_service.py lines
96-108. -/
def mkTx (transaction_data : TransactionCreate) (current_user_id : Nat)
    (source_account destination_account : Account)
    (source_currency destination_currency : Currency)
    (exchange_rate destination_amount : ℚ) : Transaction :=
  { sender_id := current_user_id
    receiver_id := destination_account.user_id
    source_account_id := source_account.id
    destination_account_id := destination_account.id
    source_amount := transaction_data.amount
    source_currency_id := source_currency.id
    destination_amount := destination_amount
    destination_currency_id := destination_currency.id
    exchange_rate := exchange_rate
    description := transaction_data.description }

/-- The mutation phase of a transfer (transaction_service.py lines 110-115):
`source_account.balance -= amount`, `destination_account.balance +=
destination_amount`, then the ledger insert. -/
def transferMutationPhase (db : DB) (source_account destination_account : Account)
    (amount destination_amount : ℚ) (new_transaction : Transaction) : DB :=
  { db with
    accounts :=
      setBalances (setBalances db.accounts source_account.id (fun b => b - amount))
        destination_account.id (fun b => b + destination_amount)
    transactions := db.transactions ++ [new_transaction] }

/-- `TransactionService.create_new_transaction` (transaction_service.py lines
54-137).  The resolver argument abstracts `self.exchange_service
.get_exchange_rate` (mock or live); the email notification step (lines
118-135) swallows its own failures and touches no account or ledger state, so
it is outside the embedding. -/
def TransactionService.create_new_transaction
    (resolver : String → String → Except RateError ℚ)
    (db : DB) (transaction_data : TransactionCreate) (current_user_id : Nat) :
    Except TxError Transaction × DB :=
  match findAccountByIdAndUser db.accounts transaction_data.source_account_id current_user_id with
  | none => (Except.error TxError.sourceAccountNotFound, db)
  | some source_account =>
    match findAccountById db.accounts transaction_data.destination_account_id with
    | none => (Except.error TxError.destinationAccountNotFound, db)
    | some destination_account =>
      if source_account.balance < transaction_data.amount then
        (Except.error TxError.insufficientBalance, db)
      else
        match findCurrencyById db.currencies source_account.currency_id with
        | none => (Except.error TxError.currencyLookupFailed, db)
        | some source_currency =>
          match findCurrencyById db.currencies destination_account.currency_id with
          | none => (Except.error TxError.currencyLookupFailed, db)
          | some destination_currency =>
            match
              if source_currency.code ≠ destination_currency.code then
                (resolver source_currency.code destination_currency.code).map
                  (fun exchange_rate =>
                    (exchange_rate, transaction_data.amount * exchange_rate))
              else
                Except.ok (1, transaction_data.amount)
            with
            | Except.error (RateError.rateUnavailable f t) =>
              (Except.error (TxError.rateUnavailable f t), db)
            | Except.ok (exchange_rate, destination_amount) =>
              let new_transaction :=
                mkTx transaction_data current_user_id source_account destination_account
                  source_currency destination_currency exchange_rate destination_amount
              (Except.ok new_transaction,
               transferMutationPhase db source_account destination_account
                 transaction_data.amount destination_amount new_transaction)

/-- The validation read phase of a transfer (transaction_service.py lines
56-74): source account found and owned, destination account found, balance
sufficient.  Used to exhibit the unsynchronized check-then-act interleaving. -/
def transferChecksPass (db : DB) (transaction_data : TransactionCreate)
    (current_user_id : Nat) : Bool :=
  match findAccountByIdAndUser db.accounts transaction_data.source_account_id current_user_id with
  | none => false
  | some source_account =>
    match findAccountById db.accounts transaction_data.destination_account_id with
    | none => false
    | some _ => decide (¬ source_account.balance < transaction_data.amount)

/-- `AccountService.deposit_to_account` (account_service.py lines 56-81). -/
def AccountService.deposit_to_account (db : DB) (account_id : Nat) (amount : ℚ) :
    Except DepositError Account × DB :=
  if amount ≤ 0 then (Except.error DepositError.invalidAmount, db)
  else
    match findAccountById db.accounts account_id with
    | none => (Except.error DepositError.accountNotFound, db)
    | some account =>
      (Except.ok { account with balance := account.balance + amount },
       { db with accounts := setBalances db.accounts account.id (fun b => b + amount) })

/-! Concrete fixtures used by witnesses and counterexamples. -/

/-- A provider pair with both adapters failing on every request. -/
def deadProviders : ExchangeProviders :=
  { primary_api := fun _ _ => none, fallback_api := fun _ _ => none }

/-- A provider pair whose primary always fails and whose fallback always
returns rate 2. -/
def halfProviders : ExchangeProviders :=
  { primary_api := fun _ _ => none, fallback_api := fun _ _ => some 2 }

/-- A resolver that always fails, for transfers that must not consult it. -/
def noResolver : String → String → Except RateError ℚ :=
  fun f t => Except.error (RateError.rateUnavailable f t)

/-- A resolver that answers every pair with rate 1. -/
def oneResolver : String → String → Except RateError ℚ :=
  fun _ _ => Except.ok 1

def usDollar : Currency := { id := 1, code := "USD", name := "US Dollar" }

def euro : Currency := { id := 2, code := "EUR", name := "Euro" }

/-- An account used as its own transfer destination. -/
def selfAccount : Account := { id := 1, user_id := 1, currency_id := 1, balance := 100 }

def selfDB : DB :=
  { accounts := [selfAccount], currencies := [usDollar], transactions := [] }

/-- A transfer of 50 from account 1 to account 1 itself. -/
def selfTd : TransactionCreate :=
  { source_account_id := 1, destination_account_id := 1, amount := 50, description := none }

def aliceAccount : Account := { id := 1, user_id := 1, currency_id := 1, balance := 100 }

def bobUsdAccount : Account := { id := 2, user_id := 2, currency_id := 1, balance := 0 }

def bobEurAccount : Account := { id := 2, user_id := 2, currency_id := 2, balance := 0 }

/-- Two distinct accounts in the same currency. -/
def usdPairDB : DB :=
  { accounts := [aliceAccount, bobUsdAccount], currencies := [usDollar], transactions := [] }

/-- Two distinct accounts in different currencies. -/
def crossPairDB : DB :=
  { accounts := [aliceAccount, bobEurAccount], currencies := [usDollar, euro],
    transactions := [] }

/-- A transfer of 50 from account 1 to account 2. -/
def pairTd : TransactionCreate :=
  { source_account_id := 1, destination_account_id := 2, amount := 50, description := none }

/-- A transfer of 2000 from account 1 (balance 100) to account 2. -/
def overdraftTd : TransactionCreate :=
  { source_account_id := 1, destination_account_id := 2, amount := 2000, description := none }

/-- A transfer of -5 from account 1 to account 2. -/
def negativeTd : TransactionCreate :=
  { source_account_id := 1, destination_account_id := 2, amount := -5, description := none }

/-- A transfer of 60 from account 1 (balance 100) to account 2, the
concurrency scenario of the spec. -/
def raceTd : TransactionCreate :=
  { source_account_id := 1, destination_account_id := 2, amount := 60, description := none }

/-- The ledger row either racing transfer of 60 would build. -/
def raceTx : Transaction :=
  mkTx raceTd 1 aliceAccount bobUsdAccount usDollar usDollar 1 60

/-- A resolver that answers every pair with rate 2. -/
def twoResolver : String → String → Except RateError ℚ :=
  fun _ _ => Except.ok 2

/-- The record produced by transferring 50 across currencies at rate 1 (the
`oneResolver` outcome on `crossPairDB`). -/
def crossTxUnitRate : Transaction :=
  mkTx pairTd 1 aliceAccount bobEurAccount usDollar euro 1 50

/-- The record produced by transferring 50 across currencies at rate 2 (the
`twoResolver` outcome on `crossPairDB`). -/
def crossTxDoubleRate : Transaction :=
  mkTx pairTd 1 aliceAccount bobEurAccount usDollar euro 2 100

/-! Helper lemmas about the query and mutation primitives. -/

theorem findAccountByIdAndUser_spec {accounts : List Account} {idv user_idv : Nat}
    {a : Account} (h : findAccountByIdAndUser accounts idv user_idv = some a) :
    a ∈ accounts ∧ a.id = idv ∧ a.user_id = user_idv := by
  refine ⟨List.mem_of_find?_eq_some h, ?_⟩
  have hp := List.find?_some h
  simpa using hp

theorem findAccountById_spec {accounts : List Account} {idv : Nat}
    {a : Account} (h : findAccountById accounts idv = some a) :
    a ∈ accounts ∧ a.id = idv := by
  refine ⟨List.mem_of_find?_eq_some h, ?_⟩
  have hp := List.find?_some h
  simpa using hp

theorem findAccountById_setBalances (accounts : List Account) (idv jdv : Nat) (f : ℚ → ℚ) :
    findAccountById (setBalances accounts idv f) jdv
      = (findAccountById accounts jdv).map
          (fun a => if a.id = idv then { a with balance := f a.balance } else a) := by
  unfold findAccountById setBalances
  rw [List.find?_map]
  have hp : ((fun a => decide (a.id = jdv)) ∘ fun a : Account =>
      if a.id = idv then { a with balance := f a.balance } else a)
      = fun a : Account => decide (a.id = jdv) := by
    funext a
    by_cases h : a.id = idv <;> simp [h]
  rw [hp]

/-- With pairwise distinct account ids, the id-only query finds exactly the
member row. -/
theorem findAccountById_of_mem_nodup {accounts : List Account} {a : Account}
    (hnd : (accounts.map Account.id).Nodup) (hmem : a ∈ accounts) :
    findAccountById accounts a.id = some a := by
  induction accounts with
  | nil => cases hmem
  | cons x xs ih =>
    rw [List.map_cons, List.nodup_cons] at hnd
    rcases List.mem_cons.mp hmem with rfl | hmem2
    · unfold findAccountById
      rw [List.find?_cons_of_pos]
      simp
    · by_cases hx : x.id = a.id
      · exact absurd (hx ▸ List.mem_map_of_mem Account.id hmem2) hnd.1
      · unfold findAccountById at ih ⊢
        rw [List.find?_cons_of_neg]
        · exact ih hnd.2 hmem2
        · simp [hx]

/-! Branch characterizations of `TransactionService.create_new_transaction`. -/

theorem create_source_missing
    (resolver : String → String → Except RateError ℚ)
    (db : DB) (td : TransactionCreate) (uid : Nat)
    (hsrc : findAccountByIdAndUser db.accounts td.source_account_id uid = none) :
    TransactionService.create_new_transaction resolver db td uid
      = (Except.error TxError.sourceAccountNotFound, db) := by
  simp [TransactionService.create_new_transaction, hsrc]

theorem create_destination_missing
    (resolver : String → String → Except RateError ℚ)
    (db : DB) (td : TransactionCreate) (uid : Nat) (src : Account)
    (hsrc : findAccountByIdAndUser db.accounts td.source_account_id uid = some src)
    (hdst : findAccountById db.accounts td.destination_account_id = none) :
    TransactionService.create_new_transaction resolver db td uid
      = (Except.error TxError.destinationAccountNotFound, db) := by
  simp [TransactionService.create_new_transaction, hsrc, hdst]

theorem create_insufficient_balance
    (resolver : String → String → Except RateError ℚ)
    (db : DB) (td : TransactionCreate) (uid : Nat) (src dst : Account)
    (hsrc : findAccountByIdAndUser db.accounts td.source_account_id uid = some src)
    (hdst : findAccountById db.accounts td.destination_account_id = some dst)
    (hbal : src.balance < td.amount) :
    TransactionService.create_new_transaction resolver db td uid
      = (Except.error TxError.insufficientBalance, db) := by
  simp [TransactionService.create_new_transaction, hsrc, hdst, hbal]

theorem create_source_currency_missing
    (resolver : String → String → Except RateError ℚ)
    (db : DB) (td : TransactionCreate) (uid : Nat) (src dst : Account)
    (hsrc : findAccountByIdAndUser db.accounts td.source_account_id uid = some src)
    (hdst : findAccountById db.accounts td.destination_account_id = some dst)
    (hbal : ¬ src.balance < td.amount)
    (hsc : findCurrencyById db.currencies src.currency_id = none) :
    TransactionService.create_new_transaction resolver db td uid
      = (Except.error TxError.currencyLookupFailed, db) := by
  simp [TransactionService.create_new_transaction, hsrc, hdst, hbal, hsc]

theorem create_destination_currency_missing
    (resolver : String → String → Except RateError ℚ)
    (db : DB) (td : TransactionCreate) (uid : Nat) (src dst : Account) (sc : Currency)
    (hsrc : findAccountByIdAndUser db.accounts td.source_account_id uid = some src)
    (hdst : findAccountById db.accounts td.destination_account_id = some dst)
    (hbal : ¬ src.balance < td.amount)
    (hsc : findCurrencyById db.currencies src.currency_id = some sc)
    (hdc : findCurrencyById db.currencies dst.currency_id = none) :
    TransactionService.create_new_transaction resolver db td uid
      = (Except.error TxError.currencyLookupFailed, db) := by
  simp [TransactionService.create_new_transaction, hsrc, hdst, hbal, hsc, hdc]

theorem create_rate_error
    (resolver : String → String → Except RateError ℚ)
    (db : DB) (td : TransactionCreate) (uid : Nat) (src dst : Account) (sc dc : Currency)
    (f t : String)
    (hsrc : findAccountByIdAndUser db.accounts td.source_account_id uid = some src)
    (hdst : findAccountById db.accounts td.destination_account_id = some dst)
    (hbal : ¬ src.balance < td.amount)
    (hsc : findCurrencyById db.currencies src.currency_id = some sc)
    (hdc : findCurrencyById db.currencies dst.currency_id = some dc)
    (hcode : sc.code ≠ dc.code)
    (hr : resolver sc.code dc.code = Except.error (RateError.rateUnavailable f t)) :
    TransactionService.create_new_transaction resolver db td uid
      = (Except.error (TxError.rateUnavailable f t), db) := by
  simp [TransactionService.create_new_transaction, hsrc, hdst, hbal, hsc, hdc, hcode, hr, Except.map]

theorem create_success_eq
    (resolver : String → String → Except RateError ℚ)
    (db : DB) (td : TransactionCreate) (uid : Nat) (src dst : Account) (sc dc : Currency)
    (r da : ℚ)
    (hsrc : findAccountByIdAndUser db.accounts td.source_account_id uid = some src)
    (hdst : findAccountById db.accounts td.destination_account_id = some dst)
    (hbal : ¬ src.balance < td.amount)
    (hsc : findCurrencyById db.currencies src.currency_id = some sc)
    (hdc : findCurrencyById db.currencies dst.currency_id = some dc)
    (hstep : (if sc.code ≠ dc.code then
                (resolver sc.code dc.code).map
                  (fun exchange_rate => (exchange_rate, td.amount * exchange_rate))
              else Except.ok (1, td.amount)) = Except.ok (r, da)) :
    TransactionService.create_new_transaction resolver db td uid
      = (Except.ok (mkTx td uid src dst sc dc r da),
         transferMutationPhase db src dst td.amount da (mkTx td uid src dst sc dc r da)) := by
  simp only [TransactionService.create_new_transaction, hsrc, hdst, hsc, hdc]
  rw [if_neg hbal, hstep]

/-! Claim theorems. -/

/-- C3: when both the current provider and the other provider fail on a
currency pair, `get_exchange_rate` fails with `RateUnavailable` naming both
codes, and the `_current_api` pointer after the call equals the pointer before
the call. -/
theorem c3_double_failure_restores_current
    (providers : ExchangeProviders) (current_api : ApiChoice) (fc tc : String)
    (hp : providers.primary_api fc tc = none)
    (hf : providers.fallback_api fc tc = none) :
    ExchangeService.get_exchange_rate providers current_api fc tc
      = (Except.error (RateError.rateUnavailable fc tc), current_api) := by
  cases current_api <;>
    simp [ExchangeService.get_exchange_rate, apiOf, otherApi, hp, hf]

/-- Witness for C3 at a concrete pair of always-failing providers. -/
theorem c3_double_failure_witness :
    ExchangeService.get_exchange_rate deadProviders ApiChoice.primary "USD" "EUR"
      = (Except.error (RateError.rateUnavailable "USD" "EUR"), ApiChoice.primary) :=
  c3_double_failure_restores_current deadProviders ApiChoice.primary "USD" "EUR" rfl rfl

/-- C4: when the current provider fails and the other succeeds,
`get_exchange_rate` returns the other provider's rate unchanged and leaves
`_current_api` on the swapped provider; and any later call that succeeds on
the now-current (swapped) provider keeps `_current_api` there — it is never
reset to primary by a success. -/
theorem c4_failover_sticks
    (providers : ExchangeProviders) (current_api : ApiChoice) (fc tc : String) (r : ℚ)
    (hc : apiOf providers current_api fc tc = none)
    (ho : apiOf providers (otherApi current_api) fc tc = some r) :
    ExchangeService.get_exchange_rate providers current_api fc tc
      = (Except.ok r, otherApi current_api)
    ∧ ∀ fc2 tc2 r2, apiOf providers (otherApi current_api) fc2 tc2 = some r2 →
        ExchangeService.get_exchange_rate providers (otherApi current_api) fc2 tc2
          = (Except.ok r2, otherApi current_api) := by
  constructor
  · simp [ExchangeService.get_exchange_rate, hc, ho]
  · intro fc2 tc2 r2 h2
    simp [ExchangeService.get_exchange_rate, h2]

/-- Witness for C4: failing primary, fallback at rate 2; the failover call
returns 2 and switches to fallback, and a subsequent successful call stays on
fallback. -/
theorem c4_failover_witness :
    ExchangeService.get_exchange_rate halfProviders ApiChoice.primary "USD" "EUR"
      = (Except.ok 2, ApiChoice.fallback)
    ∧ ExchangeService.get_exchange_rate halfProviders ApiChoice.fallback "PEN" "USD"
      = (Except.ok 2, ApiChoice.fallback) := by
  have h := c4_failover_sticks halfProviders ApiChoice.primary "USD" "EUR" 2 rfl rfl
  exact ⟨h.1, h.2 "PEN" "USD" 2 rfl⟩

/-- Every rate in the mock table is positive (hence nonzero, so Python's
truthiness test on an inverse rate always passes for table entries). -/
theorem mocked_rates_pos {p : String × String} {r : ℚ}
    (h : ratesGet MOCKED_RATES p = some r) : 0 < r := by
  unfold ratesGet at h
  cases hf : MOCKED_RATES.find? (fun e => decide (e.1 = p)) with
  | none => rw [hf] at h; cases h
  | some e =>
    rw [hf] at h
    have hmem := List.mem_of_find?_eq_some hf
    have he : e.2 = r := by simpa using h
    rw [← he]
    fin_cases hmem <;> norm_num

/-- C5: the mock resolver returns the directed table entry when present
(direct lookup takes precedence); otherwise the reciprocal of the inverse
entry when that is present; otherwise it fails with `RateUnavailable` naming
the requested pair in order. -/
theorem c5_mock_lookup_order (fc tc : String) :
    (∀ r, ratesGet MOCKED_RATES (fc, tc) = some r →
        MockExchangeService.get_exchange_rate fc tc = Except.ok r)
    ∧ (ratesGet MOCKED_RATES (fc, tc) = none →
        ∀ ir, ratesGet MOCKED_RATES (tc, fc) = some ir →
          MockExchangeService.get_exchange_rate fc tc = Except.ok (1 / ir))
    ∧ (ratesGet MOCKED_RATES (fc, tc) = none →
        ratesGet MOCKED_RATES (tc, fc) = none →
          MockExchangeService.get_exchange_rate fc tc
            = Except.error (RateError.rateUnavailable fc tc)) := by
  refine ⟨?_, ?_, ?_⟩
  · intro r hdir
    simp [MockExchangeService.get_exchange_rate, hdir]
  · intro hdir ir hinv
    have hpos := mocked_rates_pos hinv
    simp [MockExchangeService.get_exchange_rate, hdir, hinv, hpos.ne']
  · intro hdir hinv
    simp [MockExchangeService.get_exchange_rate, hdir, hinv]

/-- Witness for C5: `("USD", "GBP")` is absent while `("GBP", "USD") = 5/4`
is present, so the mock resolver answers the reciprocal 4/5. -/
theorem c5_mock_lookup_witness :
    MockExchangeService.get_exchange_rate "USD" "GBP" = Except.ok (4/5) := by
  have h := (c5_mock_lookup_order "USD" "GBP").2.1
    (by simp +decide [ratesGet, MOCKED_RATES, List.find?]) (5/4)
    (by simp +decide [ratesGet, MOCKED_RATES, List.find?])
  rw [h]
  norm_num

/-- C10: `ExchangeService()` is a process-wide singleton.  With the class
attribute `_instance` as explicit state, a construction with an existing
instance returns that instance's `_current_api` unchanged (failover state
persists across constructions), and only the first construction initializes
the pointer, to the primary adapter. -/
theorem c10_singleton_state_persists (current_api : ApiChoice) :
    ExchangeService.new (some current_api) = (some current_api, current_api)
    ∧ ExchangeService.new none = (some ApiChoice.primary, ApiChoice.primary)
    ∧ ∀ state : Option ApiChoice,
        (ExchangeService.new state).1 = some (ExchangeService.new state).2 := by
  refine ⟨rfl, rfl, ?_⟩
  intro state
  cases state <;> rfl

/-- C1 counterexample: the claim quantifies over every successful transfer,
but a self-transfer (destination id equal to source id) succeeds, and because
both queries return the same row, the debit and the credit land on the same
balance: after transferring 50 out of balance 100 the balance is 100, not
100 - 50, so the claimed source/destination balance equations fail. -/
theorem c1_self_transfer_counterexample :
    ((TransactionService.create_new_transaction noResolver selfDB selfTd 1).1).isOk = true
    ∧ (findAccountById
        (TransactionService.create_new_transaction noResolver selfDB selfTd 1).2.accounts
        1).map Account.balance = some 100
    ∧ ¬ (100 : ℚ) = 100 - 50 := by
  refine ⟨?_, ?_, by norm_num⟩
  · simp +decide [TransactionService.create_new_transaction, findAccountByIdAndUser,
      findAccountById, findCurrencyById, selfDB, selfAccount, selfTd, usDollar,
      List.find?]
  · simp +decide [TransactionService.create_new_transaction, findAccountByIdAndUser,
      findAccountById, findCurrencyById, selfDB, selfAccount, selfTd, usDollar,
      transferMutationPhase, setBalances, mkTx, List.find?]

/-- C1 (amended): for every successful transfer whose source and destination
are distinct rows (distinct account ids, ids unique in the store), the source
balance after equals its balance before minus the amount, the destination
balance after equals its balance before plus amount times the resolved rate,
and the created record satisfies `destination_amount = source_amount *
exchange_rate` exactly (numbers being exact rationals). -/
theorem c1_success_balance_equations
    (resolver : String → String → Except RateError ℚ)
    (db : DB) (td : TransactionCreate) (uid : Nat) (src dst : Account) (t : Transaction)
    (hnd : (db.accounts.map Account.id).Nodup)
    (hsrc : findAccountByIdAndUser db.accounts td.source_account_id uid = some src)
    (hdst : findAccountById db.accounts td.destination_account_id = some dst)
    (hne : src.id ≠ dst.id)
    (hok : (TransactionService.create_new_transaction resolver db td uid).1 = Except.ok t) :
    t.source_amount = td.amount
    ∧ t.destination_amount = t.source_amount * t.exchange_rate
    ∧ findAccountById (TransactionService.create_new_transaction resolver db td uid).2.accounts
        src.id = some { src with balance := src.balance - td.amount }
    ∧ findAccountById (TransactionService.create_new_transaction resolver db td uid).2.accounts
        dst.id = some { dst with balance := dst.balance + td.amount * t.exchange_rate } := by
  have hsrcById : findAccountById db.accounts src.id = some src :=
    findAccountById_of_mem_nodup hnd (findAccountByIdAndUser_spec hsrc).1
  have hdstById : findAccountById db.accounts dst.id = some dst := by
    rw [(findAccountById_spec hdst).2]
    exact hdst
  by_cases hbal : src.balance < td.amount
  · simp [create_insufficient_balance resolver db td uid src dst hsrc hdst hbal] at hok
  cases hsc : findCurrencyById db.currencies src.currency_id with
  | none =>
    simp [create_source_currency_missing resolver db td uid src dst hsrc hdst hbal hsc] at hok
  | some sc =>
  cases hdc : findCurrencyById db.currencies dst.currency_id with
  | none =>
    simp [create_destination_currency_missing resolver db td uid src dst sc
      hsrc hdst hbal hsc hdc] at hok
  | some dc =>
  by_cases hcode : sc.code = dc.code
  · have hstep : (if sc.code ≠ dc.code then
        (resolver sc.code dc.code).map
          (fun exchange_rate => (exchange_rate, td.amount * exchange_rate))
      else Except.ok (1, td.amount)) = Except.ok (1, td.amount) := by
      rw [if_neg (not_not_intro hcode)]
    have hmain := create_success_eq resolver db td uid src dst sc dc 1 td.amount
      hsrc hdst hbal hsc hdc hstep
    rw [hmain] at hok
    simp only [] at hok
    have ht : t = mkTx td uid src dst sc dc 1 td.amount := by
      cases hok
      rfl
    subst ht
    refine ⟨rfl, by simp [mkTx], ?_, ?_⟩
    · rw [hmain]
      simp [transferMutationPhase, findAccountById_setBalances, hsrcById, hne, Ne.symm hne]
    · rw [hmain]
      simp [transferMutationPhase, findAccountById_setBalances, hdstById, hne, Ne.symm hne, mkTx]
  · cases hr : resolver sc.code dc.code with
    | error e =>
      cases e with
      | rateUnavailable f2 t2 =>
        simp [create_rate_error resolver db td uid src dst sc dc f2 t2
          hsrc hdst hbal hsc hdc hcode hr] at hok
    | ok r =>
      have hstep : (if sc.code ≠ dc.code then
          (resolver sc.code dc.code).map
            (fun exchange_rate => (exchange_rate, td.amount * exchange_rate))
        else Except.ok (1, td.amount)) = Except.ok (r, td.amount * r) := by
        rw [if_pos hcode, hr]
        rfl
      have hmain := create_success_eq resolver db td uid src dst sc dc r (td.amount * r)
        hsrc hdst hbal hsc hdc hstep
      rw [hmain] at hok
      simp only [] at hok
      have ht : t = mkTx td uid src dst sc dc r (td.amount * r) := by
        cases hok
        rfl
      subst ht
      refine ⟨rfl, rfl, ?_, ?_⟩
      · rw [hmain]
        simp [transferMutationPhase, findAccountById_setBalances, hsrcById, hne, Ne.symm hne]
      · rw [hmain]
        simp [transferMutationPhase, findAccountById_setBalances, hdstById, hne, Ne.symm hne, mkTx]

/-- Witness for C1 (amended): transferring 50 between the two distinct
same-currency accounts of `usdPairDB` leaves the source at 50 and the
destination at 50. -/
theorem c1_success_balance_witness :
    findAccountById
        (TransactionService.create_new_transaction noResolver usdPairDB pairTd 1).2.accounts
        1 = some { aliceAccount with balance := 100 - 50 }
    ∧ findAccountById
        (TransactionService.create_new_transaction noResolver usdPairDB pairTd 1).2.accounts
        2 = some { bobUsdAccount with balance := 0 + 50 * 1 } := by
  have h := c1_success_balance_equations noResolver usdPairDB pairTd 1
    aliceAccount bobUsdAccount
    (mkTx pairTd 1 aliceAccount bobUsdAccount usDollar usDollar 1 50)
    (by simp +decide [usdPairDB, aliceAccount, bobUsdAccount])
    (by simp +decide [usdPairDB, aliceAccount, bobUsdAccount, findAccountByIdAndUser,
        List.find?])
    (by simp +decide [usdPairDB, aliceAccount, bobUsdAccount, findAccountById, List.find?])
    (by simp +decide [aliceAccount, bobUsdAccount])
    (by simp +decide [TransactionService.create_new_transaction, findAccountByIdAndUser,
        findAccountById, findCurrencyById, usdPairDB, aliceAccount, bobUsdAccount,
        usDollar, pairTd, mkTx, List.find?])
  have h3 := h.2.2.1
  have h4 := h.2.2.2
  constructor
  · simpa [aliceAccount, pairTd, mkTx] using h3
  · simpa [bobUsdAccount, pairTd, mkTx] using h4

/-- C2: a transfer attempt that fails validation — source account missing or
not owned by the caller, destination missing, insufficient balance, or the
resolver failing — raises the corresponding error, and every error outcome
returns the database (accounts and ledger) exactly as it was: error paths
perform no mutation. -/
theorem c2_failed_transfer_no_mutation
    (resolver : String → String → Except RateError ℚ)
    (db : DB) (td : TransactionCreate) (uid : Nat) :
    (findAccountByIdAndUser db.accounts td.source_account_id uid = none →
        TransactionService.create_new_transaction resolver db td uid
          = (Except.error TxError.sourceAccountNotFound, db))
    ∧ (∀ src, findAccountByIdAndUser db.accounts td.source_account_id uid = some src →
        findAccountById db.accounts td.destination_account_id = none →
        TransactionService.create_new_transaction resolver db td uid
          = (Except.error TxError.destinationAccountNotFound, db))
    ∧ (∀ src dst, findAccountByIdAndUser db.accounts td.source_account_id uid = some src →
        findAccountById db.accounts td.destination_account_id = some dst →
        src.balance < td.amount →
        TransactionService.create_new_transaction resolver db td uid
          = (Except.error TxError.insufficientBalance, db))
    ∧ (∀ src dst sc dc f2 t2,
        findAccountByIdAndUser db.accounts td.source_account_id uid = some src →
        findAccountById db.accounts td.destination_account_id = some dst →
        ¬ src.balance < td.amount →
        findCurrencyById db.currencies src.currency_id = some sc →
        findCurrencyById db.currencies dst.currency_id = some dc →
        sc.code ≠ dc.code →
        resolver sc.code dc.code = Except.error (RateError.rateUnavailable f2 t2) →
        TransactionService.create_new_transaction resolver db td uid
          = (Except.error (TxError.rateUnavailable f2 t2), db))
    ∧ (∀ e, (TransactionService.create_new_transaction resolver db td uid).1
          = Except.error e →
        (TransactionService.create_new_transaction resolver db td uid).2 = db) := by
  refine ⟨?_, ?_, ?_, ?_, ?_⟩
  · intro hsrc
    exact create_source_missing resolver db td uid hsrc
  · intro src hsrc hdst
    exact create_destination_missing resolver db td uid src hsrc hdst
  · intro src dst hsrc hdst hbal
    exact create_insufficient_balance resolver db td uid src dst hsrc hdst hbal
  · intro src dst sc dc f2 t2 hsrc hdst hbal hsc hdc hcode hr
    exact create_rate_error resolver db td uid src dst sc dc f2 t2
      hsrc hdst hbal hsc hdc hcode hr
  · intro e herr
    cases hsrc : findAccountByIdAndUser db.accounts td.source_account_id uid with
    | none => rw [create_source_missing resolver db td uid hsrc]
    | some src =>
    cases hdst : findAccountById db.accounts td.destination_account_id with
    | none => rw [create_destination_missing resolver db td uid src hsrc hdst]
    | some dst =>
    by_cases hbal : src.balance < td.amount
    · rw [create_insufficient_balance resolver db td uid src dst hsrc hdst hbal]
    · cases hsc : findCurrencyById db.currencies src.currency_id with
      | none =>
        rw [create_source_currency_missing resolver db td uid src dst hsrc hdst hbal hsc]
      | some sc =>
      cases hdc : findCurrencyById db.currencies dst.currency_id with
      | none =>
        rw [create_destination_currency_missing resolver db td uid src dst sc
          hsrc hdst hbal hsc hdc]
      | some dc =>
      by_cases hcode : sc.code = dc.code
      · have hstep : (if sc.code ≠ dc.code then
            (resolver sc.code dc.code).map
              (fun exchange_rate => (exchange_rate, td.amount * exchange_rate))
          else Except.ok (1, td.amount)) = Except.ok (1, td.amount) := by
          rw [if_neg (not_not_intro hcode)]
        rw [create_success_eq resolver db td uid src dst sc dc 1 td.amount
          hsrc hdst hbal hsc hdc hstep] at herr
        simp at herr
      · cases hr : resolver sc.code dc.code with
        | error re =>
          cases re with
          | rateUnavailable f2 t2 =>
            rw [create_rate_error resolver db td uid src dst sc dc f2 t2
              hsrc hdst hbal hsc hdc hcode hr]
        | ok r =>
          have hstep : (if sc.code ≠ dc.code then
              (resolver sc.code dc.code).map
                (fun exchange_rate => (exchange_rate, td.amount * exchange_rate))
            else Except.ok (1, td.amount)) = Except.ok (r, td.amount * r) := by
            rw [if_pos hcode, hr]
            rfl
          rw [create_success_eq resolver db td uid src dst sc dc r (td.amount * r)
            hsrc hdst hbal hsc hdc hstep] at herr
          simp at herr

/-- Witness for C2 at the spec's own example: source balance 100, amount
2000, the transfer fails with the insufficient-balance error and the database
is returned unchanged. -/
theorem c2_failed_transfer_witness :
    TransactionService.create_new_transaction noResolver usdPairDB overdraftTd 1
      = (Except.error TxError.insufficientBalance, usdPairDB) :=
  (c2_failed_transfer_no_mutation noResolver usdPairDB overdraftTd 1).2.2.1
    aliceAccount bobUsdAccount
    (by simp +decide [usdPairDB, aliceAccount, bobUsdAccount, overdraftTd,
        findAccountByIdAndUser, List.find?])
    (by simp +decide [usdPairDB, aliceAccount, bobUsdAccount, overdraftTd,
        findAccountById, List.find?])
    (by norm_num [aliceAccount, overdraftTd])

/-- C6 counterexample: the claimed equivalence `exchange_rate = 1.0 iff equal
codes` fails in the forward direction — nothing stops a resolver from
returning rate 1 for two distinct codes, and the service records it verbatim:
this completed transfer has exchange_rate = 1 while its currency codes are
"USD" and "EUR". -/
theorem c6_unit_rate_counterexample :
    (TransactionService.create_new_transaction oneResolver crossPairDB pairTd 1).1
      = Except.ok crossTxUnitRate
    ∧ crossTxUnitRate.exchange_rate = 1
    ∧ findCurrencyById crossPairDB.currencies crossTxUnitRate.source_currency_id
        = some usDollar
    ∧ findCurrencyById crossPairDB.currencies crossTxUnitRate.destination_currency_id
        = some euro
    ∧ usDollar.code ≠ euro.code := by
  refine ⟨?_, rfl, ?_, ?_, by decide⟩
  · simp +decide [TransactionService.create_new_transaction, findAccountByIdAndUser,
      findAccountById, findCurrencyById, crossPairDB, aliceAccount, bobEurAccount,
      usDollar, euro, pairTd, oneResolver, crossTxUnitRate, mkTx, Except.map, List.find?]
  · simp +decide [findCurrencyById, crossPairDB, usDollar, euro, crossTxUnitRate, mkTx,
      List.find?]
  · simp +decide [findCurrencyById, crossPairDB, usDollar, euro, crossTxUnitRate, mkTx,
      List.find?]

/-- C6 (amended): for every completed transfer, unconditionally, if the
source and destination currency codes are equal then the recorded
exchange_rate is 1, the destination amount equals the source amount, and the
resolver is not consulted (replacing it by any other resolver yields the
identical outcome); the converse direction — exchange_rate 1 only for equal
codes, hence the full equivalence — holds provided the resolver never answers
the consulted pair with rate 1. -/
theorem c6_rate_one_characterization
    (resolver : String → String → Except RateError ℚ)
    (db : DB) (td : TransactionCreate) (uid : Nat) (src dst : Account) (sc dc : Currency)
    (t : Transaction)
    (hsrc : findAccountByIdAndUser db.accounts td.source_account_id uid = some src)
    (hdst : findAccountById db.accounts td.destination_account_id = some dst)
    (hsc : findCurrencyById db.currencies src.currency_id = some sc)
    (hdc : findCurrencyById db.currencies dst.currency_id = some dc)
    (hok : (TransactionService.create_new_transaction resolver db td uid).1 = Except.ok t) :
    (sc.code = dc.code →
        t.exchange_rate = 1
        ∧ t.destination_amount = t.source_amount
        ∧ ∀ resolver2 : String → String → Except RateError ℚ,
            TransactionService.create_new_transaction resolver2 db td uid
              = TransactionService.create_new_transaction resolver db td uid)
    ∧ ((∀ r, resolver sc.code dc.code = Except.ok r → r ≠ 1) →
        (t.exchange_rate = 1 ↔ sc.code = dc.code)) := by
  by_cases hbal : src.balance < td.amount
  · simp [create_insufficient_balance resolver db td uid src dst hsrc hdst hbal] at hok
  by_cases hcode : sc.code = dc.code
  · have hstep : (if sc.code ≠ dc.code then
        (resolver sc.code dc.code).map
          (fun exchange_rate => (exchange_rate, td.amount * exchange_rate))
      else Except.ok (1, td.amount)) = Except.ok (1, td.amount) := by
      rw [if_neg (not_not_intro hcode)]
    have hmain := create_success_eq resolver db td uid src dst sc dc 1 td.amount
      hsrc hdst hbal hsc hdc hstep
    rw [hmain] at hok
    simp only [] at hok
    have ht : t = mkTx td uid src dst sc dc 1 td.amount := by
      cases hok
      rfl
    subst ht
    refine ⟨fun _ => ⟨by simp [mkTx], rfl, ?_⟩,
      fun _ => iff_of_true (by simp [mkTx]) hcode⟩
    intro resolver2
    have hstep2 : (if sc.code ≠ dc.code then
        (resolver2 sc.code dc.code).map
          (fun exchange_rate => (exchange_rate, td.amount * exchange_rate))
      else Except.ok (1, td.amount)) = Except.ok (1, td.amount) := by
      rw [if_neg (not_not_intro hcode)]
    rw [hmain, create_success_eq resolver2 db td uid src dst sc dc 1 td.amount
      hsrc hdst hbal hsc hdc hstep2]
  · cases hr : resolver sc.code dc.code with
    | error re =>
      cases re with
      | rateUnavailable f2 t2 =>
        simp [create_rate_error resolver db td uid src dst sc dc f2 t2
          hsrc hdst hbal hsc hdc hcode hr] at hok
    | ok r =>
      have hstep : (if sc.code ≠ dc.code then
          (resolver sc.code dc.code).map
            (fun exchange_rate => (exchange_rate, td.amount * exchange_rate))
        else Except.ok (1, td.amount)) = Except.ok (r, td.amount * r) := by
        rw [if_pos hcode, hr]
        rfl
      have hmain := create_success_eq resolver db td uid src dst sc dc r (td.amount * r)
        hsrc hdst hbal hsc hdc hstep
      rw [hmain] at hok
      simp only [] at hok
      have ht : t = mkTx td uid src dst sc dc r (td.amount * r) := by
        cases hok
        rfl
      subst ht
      exact ⟨fun hcodeEq => absurd hcodeEq hcode,
        fun hres => iff_of_false (by simpa [mkTx] using hres r rfl) hcode⟩

/-- Witness for C6 (amended) with a resolver that never answers 1: the
completed cross-currency transfer at rate 2 satisfies the equivalence (both
sides false). -/
theorem c6_rate_one_witness :
    crossTxDoubleRate.exchange_rate = 1 ↔ usDollar.code = euro.code := by
  have h := c6_rate_one_characterization twoResolver crossPairDB pairTd 1
    aliceAccount bobEurAccount usDollar euro crossTxDoubleRate
    (by simp +decide [crossPairDB, aliceAccount, bobEurAccount, pairTd,
        findAccountByIdAndUser, List.find?])
    (by simp +decide [crossPairDB, aliceAccount, bobEurAccount, pairTd,
        findAccountById, List.find?])
    (by simp +decide [crossPairDB, aliceAccount, usDollar, euro, findCurrencyById,
        List.find?])
    (by simp +decide [crossPairDB, bobEurAccount, usDollar, euro, findCurrencyById,
        List.find?])
    (by
      simp +decide [TransactionService.create_new_transaction, findAccountByIdAndUser,
        findAccountById, findCurrencyById, crossPairDB, aliceAccount, bobEurAccount,
        usDollar, euro, pairTd, twoResolver, crossTxDoubleRate, mkTx, Except.map,
        List.find?]
      norm_num)
  refine h.2 ?_
  intro r hr
  have h2 : (2 : ℚ) = r := by simpa [twoResolver] using hr
  rw [← h2]
  norm_num

/-- C7: the deposit contract — a nonpositive amount fails with the
invalid-amount error before any store access (the outcome is the same for
every store state); a missing account fails with the not-found error leaving
the store untouched; otherwise the balance grows by exactly the amount, the
change is persisted, the updated account is returned, and no ledger entry is
created. -/
theorem c7_deposit_contract (db : DB) (account_id : Nat) (amount : ℚ) :
    (amount ≤ 0 → ∀ db2 : DB, AccountService.deposit_to_account db2 account_id amount
        = (Except.error DepositError.invalidAmount, db2))
    ∧ (0 < amount → findAccountById db.accounts account_id = none →
        AccountService.deposit_to_account db account_id amount
          = (Except.error DepositError.accountNotFound, db))
    ∧ (∀ account, 0 < amount →
        findAccountById db.accounts account_id = some account →
        (db.accounts.map Account.id).Nodup →
        AccountService.deposit_to_account db account_id amount
          = (Except.ok { account with balance := account.balance + amount },
             { db with accounts := setBalances db.accounts account.id (fun b => b + amount) })
        ∧ findAccountById
            (AccountService.deposit_to_account db account_id amount).2.accounts account.id
            = some { account with balance := account.balance + amount }
        ∧ (AccountService.deposit_to_account db account_id amount).2.transactions
            = db.transactions) := by
  refine ⟨?_, ?_, ?_⟩
  · intro ha db2
    simp [AccountService.deposit_to_account, ha]
  · intro ha hnone
    simp [AccountService.deposit_to_account, hnone, not_le.mpr ha]
  · intro account ha hsome hnd
    have heq : AccountService.deposit_to_account db account_id amount
        = (Except.ok { account with balance := account.balance + amount },
           { db with accounts := setBalances db.accounts account.id (fun b => b + amount) }) := by
      simp [AccountService.deposit_to_account, hsome, not_le.mpr ha]
    refine ⟨heq, ?_, ?_⟩
    · have haccById : findAccountById db.accounts account.id = some account := by
        rw [(findAccountById_spec hsome).2]
        exact hsome
      rw [heq]
      simp [findAccountById_setBalances, haccById]
    · rw [heq]

/-- Witness for C7: depositing 30 into account 1 (balance 100) of `usdPairDB`
returns the account at balance 130 and persists it, leaving the ledger
empty. -/
theorem c7_deposit_witness :
    AccountService.deposit_to_account usdPairDB 1 30
      = (Except.ok { aliceAccount with balance := 100 + 30 },
         { usdPairDB with accounts := setBalances usdPairDB.accounts 1 (fun b => b + 30) })
    ∧ (AccountService.deposit_to_account usdPairDB 1 30).2.transactions
        = usdPairDB.transactions := by
  have h := (c7_deposit_contract usdPairDB 1 30).2.2 aliceAccount (by norm_num)
    (by simp +decide [usdPairDB, aliceAccount, bobUsdAccount, findAccountById, List.find?])
    (by simp +decide [usdPairDB, aliceAccount, bobUsdAccount])
  refine ⟨?_, h.2.2⟩
  have h1 := h.1
  simpa [aliceAccount] using h1

/-- C9: the transfer path imposes no lower bound on the amount.  For any
amount ≤ 0, with a valid owned source, an existing distinct destination,
balance ≥ amount (trivially satisfiable) and a resolvable rate, the transfer
succeeds; the debit `balance -= amount` then increases the source balance and
the credit `balance += amount*rate` debits the destination (for a nonnegative
rate). -/
theorem c9_negative_amount_transfers
    (resolver : String → String → Except RateError ℚ)
    (db : DB) (td : TransactionCreate) (uid : Nat) (src dst : Account) (sc dc : Currency)
    (r : ℚ)
    (hnd : (db.accounts.map Account.id).Nodup)
    (hsrc : findAccountByIdAndUser db.accounts td.source_account_id uid = some src)
    (hdst : findAccountById db.accounts td.destination_account_id = some dst)
    (hne : src.id ≠ dst.id)
    (ha : td.amount ≤ 0)
    (hbal : td.amount ≤ src.balance)
    (hsc : findCurrencyById db.currencies src.currency_id = some sc)
    (hdc : findCurrencyById db.currencies dst.currency_id = some dc)
    (hrate : sc.code = dc.code ∧ r = 1
      ∨ sc.code ≠ dc.code ∧ resolver sc.code dc.code = Except.ok r) :
    ((TransactionService.create_new_transaction resolver db td uid).1).isOk = true
    ∧ findAccountById (TransactionService.create_new_transaction resolver db td uid).2.accounts
        src.id = some { src with balance := src.balance - td.amount }
    ∧ src.balance ≤ src.balance - td.amount
    ∧ findAccountById (TransactionService.create_new_transaction resolver db td uid).2.accounts
        dst.id = some { dst with balance := dst.balance + td.amount * r }
    ∧ (0 ≤ r → dst.balance + td.amount * r ≤ dst.balance) := by
  have hbal2 : ¬ src.balance < td.amount := not_lt.mpr hbal
  have hsrcById : findAccountById db.accounts src.id = some src :=
    findAccountById_of_mem_nodup hnd (findAccountByIdAndUser_spec hsrc).1
  have hdstById : findAccountById db.accounts dst.id = some dst := by
    rw [(findAccountById_spec hdst).2]
    exact hdst
  have harith : src.balance ≤ src.balance - td.amount := by linarith
  have hdebit : 0 ≤ r → dst.balance + td.amount * r ≤ dst.balance := by
    intro hr0
    nlinarith
  have hstep : (if sc.code ≠ dc.code then
      (resolver sc.code dc.code).map
        (fun exchange_rate => (exchange_rate, td.amount * exchange_rate))
    else Except.ok (1, td.amount)) = Except.ok (r, td.amount * r) := by
    rcases hrate with ⟨hcode, hr1⟩ | ⟨hcode, hr⟩
    · rw [if_neg (not_not_intro hcode), hr1, mul_one]
    · rw [if_pos hcode, hr]
      rfl
  have hmain := create_success_eq resolver db td uid src dst sc dc r (td.amount * r)
    hsrc hdst hbal2 hsc hdc hstep
  rw [hmain]
  refine ⟨rfl, ?_, harith, ?_, hdebit⟩
  · simp [transferMutationPhase, findAccountById_setBalances, hsrcById, hne, Ne.symm hne]
  · simp [transferMutationPhase, findAccountById_setBalances, hdstById, hne, Ne.symm hne]

/-- Witness for C9: transferring -5 between the two balance-100/0 accounts of
`usdPairDB` succeeds and moves the source balance up to 105. -/
theorem c9_negative_amount_witness :
    ((TransactionService.create_new_transaction noResolver usdPairDB negativeTd 1).1).isOk
      = true
    ∧ findAccountById
        (TransactionService.create_new_transaction noResolver usdPairDB negativeTd 1).2.accounts
        1 = some { aliceAccount with balance := 105 } := by
  have h := c9_negative_amount_transfers noResolver usdPairDB negativeTd 1
    aliceAccount bobUsdAccount usDollar usDollar 1
    (by simp +decide [usdPairDB, aliceAccount, bobUsdAccount])
    (by simp +decide [usdPairDB, aliceAccount, bobUsdAccount, negativeTd,
        findAccountByIdAndUser, List.find?])
    (by simp +decide [usdPairDB, aliceAccount, bobUsdAccount, negativeTd,
        findAccountById, List.find?])
    (by simp +decide [aliceAccount, bobUsdAccount])
    (by norm_num [negativeTd])
    (by norm_num [negativeTd, aliceAccount])
    (by simp +decide [usdPairDB, aliceAccount, usDollar, findCurrencyById, List.find?])
    (by simp +decide [usdPairDB, bobUsdAccount, usDollar, findCurrencyById, List.find?])
    (Or.inl ⟨rfl, rfl⟩)
  refine ⟨h.1, ?_⟩
  have h2 := h.2.1
  norm_num [aliceAccount, negativeTd] at h2 ⊢
  convert h2 using 2

/-- C8: the balance check (transaction_service.py lines 72-74) and the
balance mutation (lines 110-115) run with no lock or versioning between them.
In the interleaving where both concurrent transfers of 60 run their
validation phase against the initial state (source balance 100), both checks
pass; both mutation phases then apply, leaving the source balance at -20 —
both transfers complete and the account is jointly overdrawn, contradicting
the claim that one of them must fail with the insufficient-balance error. -/
theorem c8_check_then_act_race :
    transferChecksPass usdPairDB raceTd 1 = true
    ∧ (findAccountById
        (transferMutationPhase
          (transferMutationPhase usdPairDB aliceAccount bobUsdAccount 60 60 raceTx)
          aliceAccount bobUsdAccount 60 60 raceTx).accounts 1).map Account.balance
        = some (-20)
    ∧ ((-20 : ℚ) < 0) := by
  refine ⟨?_, ?_, by norm_num⟩
  · simp +decide [transferChecksPass, findAccountByIdAndUser, findAccountById,
      usdPairDB, aliceAccount, bobUsdAccount, raceTd, List.find?]
  · simp +decide [transferMutationPhase, setBalances, findAccountById, usdPairDB,
      aliceAccount, bobUsdAccount, List.find?]
    norm_num
